import Mathlib

/-!
Verification development for the shipment reconciliation and tracking logic of
the cio repository (src/cio/src/shipments.rs).  The Rust code is shallowly
embedded: records become Lean structures, field mutation becomes functional
update, external collaborators (the Shippo carrier client, the geocoder, the
chrono date parser, the Airtable mirror, the clock) become explicit parameters,
and Rust panics (unwrap on indexing or parsing) become Option with none for a
panic.  Machine strings are modelled at the character-list level so that every
definition evaluates inside the kernel.
-/

namespace Cio

/-! ## Character-level string helpers (Rust str operations) -/

/-- Bool test that the second list starts with the first (helper for substring
containment, mirroring Rust str::contains and str::starts-with behaviour). -/
def leadsWith : List Char → List Char → Bool
  | [], _ => true
  | _ :: _, [] => false
  | p :: ps, c :: cs => p == c && leadsWith ps cs

/-- Substring search over character lists: Rust str::contains. -/
def hasSubChars (pat : List Char) : List Char → Bool
  | [] => pat.isEmpty
  | c :: rest => leadsWith pat (c :: rest) || hasSubChars pat rest

/-- Rust s.contains(pat) for strings. -/
def hasSubS (s pat : String) : Bool := hasSubChars pat.data s.data

/-- Rust str::to_lowercase (ASCII-faithful). -/
def toLowerS (s : String) : String := ⟨s.data.map Char.toLower⟩

/-- Rust str::to_uppercase (ASCII-faithful). -/
def toUpperS (s : String) : String := ⟨s.data.map Char.toUpper⟩

/-- Rust str::trim. -/
def trimS (s : String) : String :=
  ⟨((s.data.dropWhile Char.isWhitespace).reverse.dropWhile Char.isWhitespace).reverse⟩

/-- Rust str::trim_matches with a comma pattern. -/
def trimCommaS (s : String) : String :=
  ⟨((s.data.dropWhile (· == ',')).reverse.dropWhile (· == ',')).reverse⟩

/-- Rust str::parse of an unsigned number: digits only, none on failure. -/
def parseNatS (s : String) : Option Nat :=
  if s.data ≠ [] ∧ s.data.all Char.isDigit then
    some (s.data.foldl (fun n c => n * 10 + (c.toNat - 48)) 0)
  else none

/-- Rust str::split_once: split at the first occurrence of the separator. -/
def splitOnceChars (sep : List Char) : List Char → Option (List Char × List Char)
  | [] => none
  | c :: rest =>
    if leadsWith sep (c :: rest) then some ([], List.drop sep.length (c :: rest))
    else
      match splitOnceChars sep rest with
      | some (a, b) => some (c :: a, b)
      | none => none

/-- Rust s.split_once(sep) on strings (sep nonempty in every use below). -/
def splitOnceS (s sep : String) : Option (String × String) :=
  (splitOnceChars sep.data s.data).map (fun p => (⟨p.1⟩, ⟨p.2⟩))

/-- Split a character list at every occurrence of one separator character. -/
def splitCharList (sep : Char) : List Char → List (List Char)
  | [] => [[]]
  | c :: rest =>
    if c == sep then [] :: splitCharList sep rest
    else
      match splitCharList sep rest with
      | [] => [[c]]
      | g :: gs => (c :: g) :: gs

/-- Rust str::lines: newline-separated segments, one trailing empty segment
dropped, no segment for the empty string. -/
def rustLines (s : String) : List String :=
  let groups := (splitCharList '\n' s.data).map (fun g => (⟨g⟩ : String))
  match groups.getLast? with
  | some "" => groups.dropLast
  | _ => groups

/-! ## Data model

Timestamps (chrono DateTime) are modelled as Int seconds, NaiveDate as an Int
day number, and the f32 fields latitude/longitude/cost as Int (the source only
assigns them and compares cost against zero).  The stored OutboundShipment row
additionally carries the Airtable surrogate id. -/

/-- The data type for an inbound shipment (struct NewInboundShipment; the
stored InboundShipment row has the same merged fields). -/
@[ext]
structure InboundShipment where
  tracking_number : String
  carrier : String
  tracking_link : String
  oxide_tracking_link : String
  tracking_status : String
  shipped_time : Option Int
  delivered_time : Option Int
  eta : Option Int
  messages : String
  name : String
  notes : String
  deriving DecidableEq

/-- The data type for an outbound shipment (struct NewOutboundShipment plus the
airtable_record_id carried by the stored row). -/
@[ext]
structure OutboundShipment where
  name : String
  contents : String
  street_1 : String
  street_2 : String
  city : String
  state : String
  zipcode : String
  country : String
  address_formatted : String
  latitude : Int
  longitude : Int
  email : String
  phone : String
  status : String
  carrier : String
  tracking_number : String
  tracking_link : String
  oxide_tracking_link : String
  tracking_status : String
  label_link : String
  cost : Int
  pickup_date : Option Int
  created_time : Int
  shipped_time : Option Int
  delivered_time : Option Int
  eta : Option Int
  shippo_id : String
  messages : String
  notes : String
  geocode_cache : String
  local_pickup : Bool
  link_to_package_pickup : List String
  airtable_record_id : String
  deriving DecidableEq

/-- An all-empty inbound record (the Default derive of the source struct). -/
def blankInbound : InboundShipment :=
  { tracking_number := "", carrier := "", tracking_link := "", oxide_tracking_link := ""
    tracking_status := "", shipped_time := none, delivered_time := none, eta := none
    messages := "", name := "", notes := "" }

/-- An all-empty outbound record (every field at its zero value). -/
def blankOutbound : OutboundShipment :=
  { name := "", contents := "", street_1 := "", street_2 := "", city := "", state := ""
    zipcode := "", country := "", address_formatted := "", latitude := 0, longitude := 0
    email := "", phone := "", status := "", carrier := "", tracking_number := ""
    tracking_link := "", oxide_tracking_link := "", tracking_status := "", label_link := ""
    cost := 0, pickup_date := none, created_time := 0, shipped_time := none
    delivered_time := none, eta := none, shippo_id := "", messages := "", notes := ""
    geocode_cache := "", local_pickup := false, link_to_package_pickup := []
    airtable_record_id := "" }

/-! ## FieldMerge: UpdateAirtableRecord implementations

In the source, update_airtable_record mutates self (the record freshly derived
from the database, i.e. the incoming side of the merge) using record (the
record already stored in the Airtable mirror, i.e. the existing side): the
mirror-owned fields are always taken from the existing record, and every
guarded field keeps the incoming value unless it is empty or unset, in which
case the existing value fills the gap. -/

/-- Lines 70-95 of shipments.rs: the InboundShipment field merge.  self is the
incoming record (mutated in the source), record the existing mirror record. -/
def InboundShipment.update_airtable_record (self record : InboundShipment) : InboundShipment :=
  { self with
    carrier := if self.carrier = "" then record.carrier else self.carrier
    tracking_number := if self.tracking_number = "" then record.tracking_number else self.tracking_number
    tracking_link := if self.tracking_link = "" then record.tracking_link else self.tracking_link
    tracking_status := if self.tracking_status = "" then record.tracking_status else self.tracking_status
    shipped_time := if self.shipped_time = none then record.shipped_time else self.shipped_time
    delivered_time := if self.delivered_time = none then record.delivered_time else self.delivered_time
    eta := if self.eta = none then record.eta else self.eta
    notes := if self.notes = "" then record.notes else self.notes }

/-- Lines 807-852 of shipments.rs: the OutboundShipment field merge.  The two
mirror-owned fields are copied from the existing record unconditionally; each
listed field keeps the incoming value unless empty/unset/zero. -/
def OutboundShipment.update_airtable_record (self record : OutboundShipment) : OutboundShipment :=
  { self with
    link_to_package_pickup := record.link_to_package_pickup
    geocode_cache := record.geocode_cache
    status := if self.status = "" then record.status else self.status
    carrier := if self.carrier = "" then record.carrier else self.carrier
    tracking_number := if self.tracking_number = "" then record.tracking_number else self.tracking_number
    tracking_link := if self.tracking_link = "" then record.tracking_link else self.tracking_link
    tracking_status := if self.tracking_status = "" then record.tracking_status else self.tracking_status
    label_link := if self.label_link = "" then record.label_link else self.label_link
    pickup_date := if self.pickup_date = none then record.pickup_date else self.pickup_date
    shipped_time := if self.shipped_time = none then record.shipped_time else self.shipped_time
    delivered_time := if self.delivered_time = none then record.delivered_time else self.delivered_time
    shippo_id := if self.shippo_id = "" then record.shippo_id else self.shippo_id
    eta := if self.eta = none then record.eta else self.eta
    cost := if self.cost = 0 then record.cost else self.cost
    notes := if self.notes = "" then record.notes else self.notes }

/-! ## Carrier tracking interface (shippo client results) -/

/-- One entry of a Shippo tracking report (shippo::Status). -/
structure TrackingEvent where
  status : String
  status_date : Option Int
  status_details : String
  deriving DecidableEq

/-- The Default derive of shippo::Status (unwrap_or_default in the source). -/
def blankEvent : TrackingEvent := { status := "", status_date := none, status_details := "" }

/-- A Shippo tracking-status response (shippo::TrackingStatus), as returned by
get_tracking_status and register_tracking_webhook. -/
structure TrackingInfo where
  tracking_number : String
  tracking_status : Option TrackingEvent
  eta : Option Int
  tracking_history : List TrackingEvent
  deriving DecidableEq

/-- A Shippo shipping label (shippo::Shipment label / transaction fields read
by the source); messages carries the Debug-formatted messages text. -/
structure Label where
  tracking_number : String
  tracking_url_provider : String
  tracking_status : String
  label_url : String
  eta : Option Int
  object_id : String
  status : String
  messages : String
  deriving DecidableEq

/-- A Shippo rate quote (shippo::Rate fields read by the source). -/
structure Rate where
  attributes : List String
  object_id : String
  provider : String
  amount_local : String
  deriving DecidableEq

/-- Returns the office phone number (function oxide_hq_phone). -/
def oxide_hq_phone : String := "+15109221392"

/-- The branded tracking link, a pure function of carrier and tracking number
(method oxide_tracking_link on both shipment types). -/
def oxide_tracking_link_of (carrier tracking_number : String) : String :=
  "https://track.oxide.computer/" ++ carrier ++ "/" ++ tracking_number

/-- Lines 104-117 of shipments.rs: set tracking_link from the carrier-specific
URL template (method tracking_link; unknown carriers leave the field alone). -/
def InboundShipment.tracking_link_update (self : InboundShipment) : InboundShipment :=
  let carrier := toLowerS self.carrier
  if carrier = "usps" then
    { self with tracking_link := "https://tools.usps.com/go/TrackConfirmAction_input?origTrackNum=" ++ self.tracking_number }
  else if carrier = "ups" then
    { self with tracking_link := "https://www.ups.com/track?tracknum=" ++ self.tracking_number }
  else if carrier = "fedex" then
    { self with tracking_link := "https://www.fedex.com/apps/fedextrack/?tracknumbers=" ++ self.tracking_number }
  else if carrier = "dhl" then
    { self with tracking_link := "https://www.dhl.com/en/express/tracking.html?AWB=" ++ self.tracking_number }
  else self

/-- The for-loop over the tracking history shared by NewInboundShipment::expand
(lines 144-154) and create_or_get_shippo_shipment (lines 1109-1119): every
TRANSIT entry with a date earlier than the current shipped time (or than the
clock when unset) becomes the new shipped time. -/
def shippedFold (now : Int) : Option Int → List TrackingEvent → Option Int
  | acc, [] => acc
  | acc, h :: rest =>
    shippedFold now
      (if h.status = "TRANSIT" then
        match h.status_date with
        | some t =>
          if t < (match acc with | some s => s | none => now) then some t else acc
        | none => acc
      else acc) rest

/-- Lines 120-159 of shipments.rs: NewInboundShipment::expand.  The Shippo
get_tracking_status response and the clock are passed in explicitly. -/
def NewInboundShipment.expand (now : Int) (ts : TrackingInfo) (self : InboundShipment) : InboundShipment :=
  let status := ts.tracking_status.getD blankEvent
  let s := { self with tracking_number := ts.tracking_number, tracking_status := status.status }
  let s := s.tracking_link_update
  let s := { s with eta := ts.eta }
  let s := { s with oxide_tracking_link := oxide_tracking_link_of s.carrier s.tracking_number }
  let s := { s with messages := status.status_details }
  let s := { s with shipped_time := shippedFold now s.shipped_time ts.tracking_history }
  if status.status = "DELIVERED" then { s with delivered_time := status.status_date } else s

/-- Lines 1055-1069 of shipments.rs: copy the get_shipping_label response
fields onto the record and rederive the branded tracking link. -/
def pollLabelPhase (label : Label) (self : OutboundShipment) : OutboundShipment :=
  let s := { self with
    tracking_number := label.tracking_number
    tracking_link := label.tracking_url_provider
    tracking_status := label.tracking_status
    label_link := label.label_url
    eta := label.eta
    shippo_id := label.object_id
    messages := if label.status ≠ "SUCCESS" then label.messages else self.messages }
  { s with oxide_tracking_link := oxide_tracking_link_of s.carrier s.tracking_number }

/-- Lines 1078-1080 of shipments.rs: default the messages field from the
webhook status details when still empty. -/
def pollMessagesPhase (ts : TrackingEvent) (s0 : OutboundShipment) : OutboundShipment :=
  if s0.messages = "" then { s0 with messages := ts.status_details } else s0

/-- Lines 1083-1094 of shipments.rs: on a transit report, send the recipient
notification and stamp shipped_time if the status is not already Shipped, and
land on Shipped.  The Bool records whether send_email_to_recipient ran. -/
def pollTransitStep (ts : TrackingEvent) (s : OutboundShipment) : OutboundShipment × Bool :=
  if ts.status = "TRANSIT" ∨ ts.status = "IN_TRANSIT" then
    if s.status ≠ "Shipped" then
      ({ s with shipped_time := ts.status_date, status := "Shipped" }, true)
    else ({ s with status := "Shipped" }, false)
  else (s, false)

/-- Lines 1095-1104 of shipments.rs: map the terminal carrier statuses. -/
def pollTerminalStep (ts : TrackingEvent) (s : OutboundShipment) : OutboundShipment :=
  let s := if ts.status = "DELIVERED" then { s with status := "Delivered", delivered_time := ts.status_date } else s
  let s := if ts.status = "RETURNED" then { s with status := "Returned" } else s
  if ts.status = "FAILURE" then { s with status := "Failure" } else s

/-- Lines 1077-1104 of shipments.rs: react to the polled tracking status. -/
def pollStatusPhase (ts : TrackingEvent) (s0 : OutboundShipment) : OutboundShipment × Bool :=
  let r := pollTransitStep ts (pollMessagesPhase ts s0)
  (pollTerminalStep ts r.1, r.2)

/-- Lines 1054-1122 of shipments.rs: the existing-label branch of
create_or_get_shippo_shipment.  label is the get_shipping_label response,
webhook the register_tracking_webhook response (Default on error).  The Bool
result records whether send_email_to_recipient ran this pass. -/
def OutboundShipment.pollShippo (now : Int) (label : Label) (webhook : TrackingInfo)
    (self : OutboundShipment) : OutboundShipment × Bool :=
  let s := pollLabelPhase label self
  let ts := webhook.tracking_status.getD blankEvent
  let r := pollStatusPhase ts s
  ({ r.1 with shipped_time := shippedFold now r.1.shipped_time webhook.tracking_history }, r.2)

/-- Lines 855-865 of shipments.rs: populate_formatted_address. -/
def OutboundShipment.populate_formatted_address (self : OutboundShipment) : OutboundShipment :=
  let street_address :=
    if self.street_2 ≠ "" then self.street_1 ++ "\n" ++ self.street_2 else self.street_1
  let whole := street_address ++ "\n" ++ self.city ++ ", " ++ self.state ++ " " ++ self.zipcode ++ " " ++ self.country
  { self with address_formatted := trimS (trimCommaS (trimS whole)) }

/-- Lines 1134-1149 of shipments.rs: the per-line customs items of the customs
declaration.  Each contents line is split once at the quantity separator
(defaulting to quantity 1 when absent) and the quantity text is parsed with
unwrap: a line whose quantity text is not a number panics, modelled as none. -/
def parseQuantity (line : String) : Option Nat :=
  let pfx := match splitOnceS line " x " with
    | some p => p.1
    | none => "1"
  parseNatS pfx

/-- The per-line loop of lines 1134-1149: quantities in order, none as soon as
one line's quantity fails to parse (the unwrap panic). -/
def customsQuantities : List String → Option (List Nat)
  | [] => some []
  | line :: rest =>
    match parseQuantity line with
    | none => none
    | some q =>
      match customsQuantities rest with
      | none => none
      | some qs => some (q :: qs)

def customs_items_quantities (contents : String) : Option (List Nat) :=
  customsQuantities (rustLines contents)

/-- The external results consumed by one create_or_get_shippo_shipment pass:
geocoder result, get_shipping_label response, register_tracking_webhook
response, the rate quotes of the created shipment, and the label purchased
from the chosen rate. -/
structure ExternalIn where
  geo_latitude : Int
  geo_longitude : Int
  label : Label
  webhook : TrackingInfo
  shipment_rates : List Rate
  new_label : Label
  deriving DecidableEq

/-- Lines 1165-1169 of shipments.rs: rename the long country names. -/
def renameCountry (s : OutboundShipment) : OutboundShipment :=
  if s.country = "Great Britain" then { s with country := "GB" }
  else if s.country = "United States" then { s with country := "US" } else s

/-- Lines 1172-1175 of shipments.rs: fall back to the office phone number. -/
def defaultPhone (s : OutboundShipment) : OutboundShipment :=
  if s.phone = "" then { s with phone := oxide_hq_phone } else s

/-- Lines 1223-1262 of shipments.rs: buy the label from the chosen rate, set
the carrier fields, and advance the status through Label created to Label
printed (passing through the provider's raw status on a non-SUCCESS label). -/
def purchaseLabel (env : ExternalIn) (rate : Rate) (cost : Int) (s : OutboundShipment) :
    OutboundShipment :=
  let s := { s with
    carrier := rate.provider
    cost := cost
    tracking_number := env.new_label.tracking_number
    tracking_link := env.new_label.tracking_url_provider
    tracking_status := env.new_label.tracking_status
    label_link := env.new_label.label_url
    eta := env.new_label.eta
    shippo_id := env.new_label.object_id
    status := "Label created" }
  let s := if env.new_label.status ≠ "SUCCESS" then
      { s with status := env.new_label.status, messages := env.new_label.messages }
    else s
  let s := { s with oxide_tracking_link := oxide_tracking_link_of s.carrier s.tracking_number }
  { s with status := "Label printed" }

/-- Lines 1125-1273 of shipments.rs: the no-label-yet branch of
create_or_get_shippo_shipment — customs declaration for non-US destinations
(none models the quantity-parse panic), country renames, phone default, rate
selection by the BESTVALUE/CHEAPEST tags (first match; none found leaves the
record unchanged), label purchase, and the advance to Label printed.
parseCost stands for the Rust float parse of rate.amount_local (unwrap: none
panics the pass).  The recipient notification never runs here, only the
internal packing email, so the Bool is always false. -/
def createLabelBranch (parseCost : String → Option Int) (env : ExternalIn)
    (s : OutboundShipment) : Option (OutboundShipment × Bool) :=
  (if s.country ≠ "US" then (customs_items_quantities s.contents).map (fun _ => ()) else some ()).bind
    (fun _ =>
      let s2 := defaultPhone (renameCountry s)
      match env.shipment_rates.find?
          (fun r => r.attributes.contains "BESTVALUE" || r.attributes.contains "CHEAPEST") with
      | none => some (s2, false)
      | some rate =>
        (parseCost rate.amount_local).map (fun cost => (purchaseLabel env rate cost s2, false)))

/-- Lines 1025-1273 of shipments.rs: OutboundShipment::create_or_get_shippo_shipment.
env carries the carrier and geocoder responses, now the clock.  The Bool
result records whether send_email_to_recipient ran.  Persist checkpoints
(self.update) mutate no modelled field and are omitted.  Lines 1036-1043:
the geocode cache refill when latitude or longitude is still zero. -/
def geocodeStep (env : ExternalIn) (s : OutboundShipment) : OutboundShipment :=
  if s.latitude = 0 ∨ s.longitude = 0 then
    { s with latitude := env.geo_latitude, longitude := env.geo_longitude }
  else s

/-- Lines 1025-1273 of shipments.rs assembled: formatted address, geocode
checkpoint, local-pickup early exit, the existing-label poll, and otherwise
the label-creation branch. -/
def OutboundShipment.create_or_get_shippo_shipment (parseCost : String → Option Int)
    (env : ExternalIn) (now : Int) (self : OutboundShipment) :
    Option (OutboundShipment × Bool) :=
  let s := geocodeStep env self.populate_formatted_address
  if s.local_pickup then some ({ s with status := "Picked up" }, false)
  else if s.shippo_id ≠ "" then some (s.pollShippo now env.label env.webhook)
  else createLabelBranch parseCost env s

/-! ## PickupScheduler: next business day and create_pickup

Instants are Int seconds; the US Pacific localization of chrono-tz is modelled
as a fixed utc offset off (the spec fixes one local timezone), so the local
civil day of an instant t is (t + off) / 86400 and its local second of day is
(t + off) % 86400.  Day 0 (1970-01-01) was a Thursday. -/

/-- Strftime %A weekday name of a civil day number. -/
def weekdayName (d : Int) : String :=
  let m := d % 7
  if m = 0 then "Thursday" else if m = 1 then "Friday" else if m = 2 then "Saturday"
  else if m = 3 then "Sunday" else if m = 4 then "Monday" else if m = 5 then "Tuesday"
  else "Wednesday"

/-- Local civil day number of an instant under utc offset off. -/
def localDay (off t : Int) : Int := (t + off) / 86400

/-- Local second of day of an instant under utc offset off. -/
def localSecOfDay (off t : Int) : Int := (t + off) % 86400

/-- Utc instant of a given local second of day on a given local civil day. -/
def localInstant (off d sec : Int) : Int := d * 86400 + sec - off

/-- Lines 481-500 of shipments.rs: get_next_business_day.  Tomorrow is one day
of absolute time after now; a Saturday is pushed by three days from now and a
Sunday by two; the window runs 08:59:59 to 16:59:59 local on that day. -/
def get_next_business_day (off now : Int) : Int × Int :=
  let next_day := now + 86400
  let day_of_week_string := weekdayName (localDay off next_day)
  let next_day :=
    if day_of_week_string = "Saturday" then now + 3 * 86400
    else if day_of_week_string = "Sunday" then now + 2 * 86400
    else next_day
  let start_time := localInstant off (localDay off next_day) (8 * 3600 + 59 * 60 + 59)
  let end_time := localInstant off (localDay off next_day) (16 * 3600 + 59 * 60 + 59)
  (start_time, end_time)

/-- A Shippo carrier account (fields read by create_pickup). -/
structure CarrierAccount where
  carrier : String
  object_id : String
  deriving DecidableEq

/-- The Shippo create_pickup response fields read by the source. -/
structure PickupResponse where
  object_id : String
  confirmation_code : String
  status : String
  confirmed_start_time : Option Int
  confirmed_end_time : Option Int
  cancel_by_time : Option Int
  messages : String
  deriving DecidableEq

/-- The data type for a shipment pickup (struct NewPackagePickup). -/
structure NewPackagePickup where
  shippo_id : String
  confirmation_code : String
  carrier : String
  status : String
  location : String
  transactions : List String
  link_to_outbound_shipments : List String
  requested_start_time : Int
  requested_end_time : Int
  confirmed_start_time : Option Int
  confirmed_end_time : Option Int
  cancel_by_time : Option Int
  messages : String
  deriving DecidableEq

/-- The selection predicate of create_pickup: status Label printed, carrier
USPS, and no pickup date yet. -/
def pickupEligible (s : OutboundShipment) : Bool :=
  s.status == "Label printed" && s.carrier == "USPS" && s.pickup_date == none

/-- Lines 353-452 of shipments.rs: OutboundShipments::create_pickup.  The
repository is a row list; accounts is the list_carrier_accounts response and
resp the create_pickup response.  The result is the updated repository, the
PackagePickup row inserted (none when none is created), and whether any Shippo
API call was made (the client is only built after the early returns). -/
def OutboundShipments.create_pickup (db : List OutboundShipment)
    (accounts : List CarrierAccount) (resp : PickupResponse) (off now : Int) :
    List OutboundShipment × Option NewPackagePickup × Bool :=
  let shipments := db.filter pickupEligible
  if shipments = [] then (db, none, false)
  else
    let transaction_ids := shipments.map (fun s => s.shippo_id)
    let link_to_outbound_shipments := shipments.map (fun s => s.airtable_record_id)
    if transaction_ids = [] then (db, none, false)
    else
      let carrier_account_id :=
        ((accounts.find? (fun ca => toLowerS ca.carrier == "usps")).map (fun ca => ca.object_id)).getD ""
      if carrier_account_id = "" then (db, none, true)
      else
        let w := get_next_business_day off now
        let pickup_date := w.1 / 86400
        let np : NewPackagePickup := {
          shippo_id := resp.object_id
          confirmation_code := resp.confirmation_code, carrier := "USPS", status := resp.status
          location := "Oxide HQ", transactions := transaction_ids, link_to_outbound_shipments
          requested_start_time := w.1, requested_end_time := w.2
          confirmed_start_time := resp.confirmed_start_time
          confirmed_end_time := resp.confirmed_end_time, cancel_by_time := resp.cancel_by_time
          messages := resp.messages }
        let db' := db.map (fun s => if pickupEligible s then { s with pickup_date := some pickup_date } else s)
        (db', some np, true)

/-! ## IntakeAdapter: column discovery and row parsing -/

/-- The data type for the Google Sheet swag columns (struct SwagSheetColumns). -/
@[ext]
structure SwagSheetColumns where
  timestamp : Nat
  name : Nat
  email : Nat
  street_1 : Nat
  street_2 : Nat
  city : Nat
  state : Nat
  zipcode : Nat
  country : Nat
  phone : Nat
  sent : Nat
  fleece_size : Nat
  hoodie_size : Nat
  womens_shirt_size : Nat
  unisex_shirt_size : Nat
  kids_shirt_size : Nat
  deriving DecidableEq

/-- The Default derive of SwagSheetColumns: every index zero. -/
def swagDefault : SwagSheetColumns :=
  { timestamp := 0, name := 0, email := 0, street_1 := 0, street_2 := 0, city := 0
    state := 0, zipcode := 0, country := 0, phone := 0, sent := 0, fleece_size := 0
    hoodie_size := 0, womens_shirt_size := 0, unisex_shirt_size := 0, kids_shirt_size := 0 }

/-- The loop body of SwagSheetColumns::parse (lines 1308-1359): one header
cell, lowercased, updates every target field whose keyword it contains with
the current index.  The sixteen if statements touch disjoint fields. -/
def applyCell (index : Nat) (col : String) (cols : SwagSheetColumns) : SwagSheetColumns :=
  let c := toLowerS col
  { timestamp := if hasSubS c "timestamp" then index else cols.timestamp
    name := if hasSubS c "name" then index else cols.name
    email := if hasSubS c "email address" then index else cols.email
    fleece_size := if hasSubS c "fleece" then index else cols.fleece_size
    hoodie_size := if hasSubS c "hoodie" then index else cols.hoodie_size
    womens_shirt_size := if hasSubS c "women's tee" then index else cols.womens_shirt_size
    unisex_shirt_size := if hasSubS c "unisex tee" then index else cols.unisex_shirt_size
    kids_shirt_size := if hasSubS c "onesie" then index else cols.kids_shirt_size
    street_1 := if hasSubS c "street address line 1" then index else cols.street_1
    street_2 := if hasSubS c "street address line 2" then index else cols.street_2
    city := if hasSubS c "city" then index else cols.city
    state := if hasSubS c "state" then index else cols.state
    zipcode := if hasSubS c "zipcode" then index else cols.zipcode
    country := if hasSubS c "country" then index else cols.country
    phone := if hasSubS c "phone" then index else cols.phone
    sent := if hasSubS c "sent" then index else cols.sent }

/-- The enumerated iteration of SwagSheetColumns::parse over the header row. -/
def scanFrom (cols : SwagSheetColumns) (index : Nat) : List String → SwagSheetColumns
  | [] => cols
  | col :: rest => scanFrom (applyCell index col cols) (index + 1) rest

/-- Lines 1300-1361 of shipments.rs: SwagSheetColumns::parse scans the first
row of the sheet values; values.get(0).unwrap() panics on an empty sheet,
modelled as none. -/
def SwagSheetColumns.parse (values : List (List String)) : Option SwagSheetColumns :=
  match values with
  | [] => none
  | row :: _ => some (scanFrom swagDefault 0 row)

/-- A cell of a sheet row with the empty default used under a length guard. -/
def rowCell (row : List String) (i : Nat) : String := (row.get? i).getD ""

/-- The guarded cell pattern of parse_from_row_with_columns: value only when
the row is long enough and the column was discovered (index nonzero). -/
def guardedCell (row : List String) (i : Nat) (f : String → String) : String :=
  if row.length > i ∧ i ≠ 0 then f (rowCell row i) else ""

/-- The sent flag (line 579): contains true, with a length guard only. -/
def rowSent (columns : SwagSheetColumns) (row : List String) : Bool :=
  if row.length > columns.sent then hasSubS (toLowerS (rowCell row columns.sent)) "true" else false

/-- The country cell (lines 583-590): guarded like the other cells but with a
US default, applied again when the cell is present yet empty. -/
def rowCountry (columns : SwagSheetColumns) (row : List String) : String :=
  let country0 := if row.length > columns.country ∧ columns.country ≠ 0 then
      toUpperS (trimS (rowCell row columns.country))
    else "US"
  if country0 = "" then "US" else country0

/-- The email cell (line 689): indexed without any bounds check, so none
(panic) when the row is too short. -/
def rowEmail (columns : SwagSheetColumns) (row : List String) : Option String :=
  (row.get? columns.email).map (fun s => toLowerS (trimS s))

/-- The created_time cell (line 707): indexed without any bounds check and
parsed with unwrap; parseTs stands for the chrono timestamp parse of
parse_timestamp, and none is a panic. -/
def rowCreated (parseTs : String → Option Int) (columns : SwagSheetColumns) (row : List String) :
    Option Int :=
  (row.get? columns.timestamp).bind parseTs

/-- One swag line of the contents text (lines 691-705). -/
def sizeLine (item size : String) : String :=
  if size ≠ "" ∧ ¬ hasSubS size "N/A" then "1 x " ++ item ++ ", Size: " ++ size ++ "\n" else ""

/-- The contents text assembled from the five size cells. -/
def contentsFromSizes (hoodie fleece womens unisex kids : String) : String :=
  sizeLine "Oxide Hoodie" hoodie ++ sizeLine "Oxide Fleece" fleece
    ++ sizeLine "Oxide Women's Shirt" womens ++ sizeLine "Oxide Unisex Shirt" unisex
    ++ sizeLine "Oxide Kids Shirt" kids

/-- The Airtable-owned fields read back by parse_from_row_with_columns. -/
structure AirtableFields where
  local_pickup : Bool
  link_to_package_pickup : List String
  deriving DecidableEq

/-- Lines 576-801 of shipments.rs: NewOutboundShipment::parse_from_row_with_columns.
The database is a row list queried by the (email, created_time) natural key;
airtable stands for get_existing_airtable_record.  Every guarded field falls
back to its empty default on a short row, while the email and timestamp cells
are indexed unchecked (none models the panic). -/
def NewOutboundShipment.parse_from_row_with_columns (parseTs : String → Option Int)
    (airtable : OutboundShipment → Option AirtableFields) (db : List OutboundShipment)
    (columns : SwagSheetColumns) (row : List String) : Option (OutboundShipment × Bool) :=
  let sent := rowSent columns row
  let country := rowCountry columns row
  let name := guardedCell row columns.name trimS
  let phone := guardedCell row columns.phone (fun c => toLowerS (trimS c))
  let zipcode := guardedCell row columns.zipcode (fun c => toUpperS (trimS c))
  let state := guardedCell row columns.state (fun c => toUpperS (trimS c))
  let city := guardedCell row columns.city (fun c => toUpperS (trimS c))
  let street_1 := guardedCell row columns.street_1 (fun c => toUpperS (trimS c))
  let street_2 := guardedCell row columns.street_2 (fun c => toUpperS (trimS c))
  let hoodie_size := guardedCell row columns.hoodie_size (fun c => toUpperS (trimS c))
  let fleece_size := guardedCell row columns.fleece_size (fun c => toUpperS (trimS c))
  let womens_shirt_size := guardedCell row columns.womens_shirt_size (fun c => toUpperS (trimS c))
  let unisex_shirt_size := guardedCell row columns.unisex_shirt_size (fun c => toUpperS (trimS c))
  let kids_shirt_size := guardedCell row columns.kids_shirt_size (fun c => toUpperS (trimS c))
  match rowEmail columns row with
  | none => none
  | some email =>
    let contents := contentsFromSizes hoodie_size fleece_size womens_shirt_size unisex_shirt_size kids_shirt_size
    match rowCreated parseTs columns row with
    | none => none
    | some created_time =>
      let base : OutboundShipment := { blankOutbound with
        created_time, name, email, phone, street_1, street_2, city, state, zipcode, country
        contents := trimS contents }
      match db.find? (fun s => s.email == email && s.created_time == created_time) with
      | none =>
        some (base, sent)
      | some shipment =>
        let existing := airtable shipment
        some ({ base with
          local_pickup := (existing.map (fun e => e.local_pickup)).getD false
          link_to_package_pickup := (existing.map (fun e => e.link_to_package_pickup)).getD []
          carrier := shipment.carrier
          address_formatted := shipment.address_formatted
          shippo_id := shipment.shippo_id
          pickup_date := shipment.pickup_date
          delivered_time := shipment.delivered_time
          shipped_time := shipment.shipped_time
          tracking_link := shipment.tracking_link
          oxide_tracking_link := shipment.oxide_tracking_link
          cost := shipment.cost
          tracking_status := shipment.tracking_status
          label_link := shipment.label_link
          eta := shipment.eta
          notes := shipment.notes
          geocode_cache := shipment.geocode_cache
          messages := shipment.messages
          status := shipment.status
          tracking_number := shipment.tracking_number
          latitude := shipment.latitude
          longitude := shipment.longitude }, sent)

/-- Modelled from the spec: the repository upsert generated by the db macro
invocation at lines 185-193 is not under src; per the spec it has
lookup-or-create semantics, matching on the declared match_on fields of the
declaration in src — tracking_number and carrier for outbound shipments —
updating the first matching row and inserting a new row otherwise. -/
def upsert_outbound (db : List OutboundShipment) (r : OutboundShipment) : List OutboundShipment :=
  match db.findIdx? (fun s => s.tracking_number == r.tracking_number && s.carrier == r.carrier) with
  | some i => db.set i r
  | none => db ++ [r]

/-- Lines 1398-1406 of refresh_outbound_shipments: parse one sheet row against
the repository and, unless the row was already marked sent, stamp the
generated note and upsert the candidate.  none propagates a parse panic. -/
def processRow (parseTs : String → Option Int)
    (airtable : OutboundShipment → Option AirtableFields) (columns : SwagSheetColumns)
    (row : List String) (sheetNote : String) (db : List OutboundShipment) :
    Option (List OutboundShipment) :=
  (NewOutboundShipment.parse_from_row_with_columns parseTs airtable db columns row).map
    (fun p => if p.2 then db else upsert_outbound db { p.1 with notes := sheetNote })

/-! ## Reconciliation traces (for the notification and timestamp claims) -/

/-- One reconciliation pass input for a record that already has a label. -/
structure PollIn where
  now : Int
  label : Label
  webhook : TrackingInfo
  deriving DecidableEq

/-- Whether a webhook response reports the shipment in transit (the guard of
the recipient notification at line 1083). -/
def isTransit (webhook : TrackingInfo) : Prop :=
  (webhook.tracking_status.getD blankEvent).status = "TRANSIT"
    ∨ (webhook.tracking_status.getD blankEvent).status = "IN_TRANSIT"

instance (webhook : TrackingInfo) : Decidable (isTransit webhook) := by
  unfold isTransit; infer_instance

/-- Repeated polling passes over one record: the final record and how many
times the package-on-the-way notification was sent. -/
def pollTrace (self : OutboundShipment) : List PollIn → OutboundShipment × Nat
  | [] => (self, 0)
  | p :: rest =>
    let r := self.pollShippo p.now p.label p.webhook
    let t := pollTrace r.1 rest
    (t.1, (if r.2 then 1 else 0) + t.2)

/-! ## Claims C1 and C5: the field merge -/

/-- The gap-fill policy on a string field as the amended claim words it: the
incoming value wins whenever it is non-empty, the existing value fills gaps. -/
def gapFill (incoming existing : String) : String :=
  if incoming = "" then existing else incoming

/-- The gap-fill policy on an optional timestamp field. -/
def gapFillOpt (incoming existing : Option Int) : Option Int :=
  if incoming = none then existing else incoming

/-- The gap-fill policy on the cost field (zero means unset). -/
def gapFillCost (incoming existing : Int) : Int :=
  if incoming = 0 then existing else incoming

/-- The inbound merge as the amended claim describes it, field by field. -/
def mergeInboundSpec (incoming existing : InboundShipment) : InboundShipment :=
  { tracking_number := gapFill incoming.tracking_number existing.tracking_number
    carrier := gapFill incoming.carrier existing.carrier
    tracking_link := gapFill incoming.tracking_link existing.tracking_link
    oxide_tracking_link := incoming.oxide_tracking_link
    tracking_status := gapFill incoming.tracking_status existing.tracking_status
    shipped_time := gapFillOpt incoming.shipped_time existing.shipped_time
    delivered_time := gapFillOpt incoming.delivered_time existing.delivered_time
    eta := gapFillOpt incoming.eta existing.eta
    messages := incoming.messages
    name := incoming.name
    notes := gapFill incoming.notes existing.notes }

/-- The outbound merge as the amended claim describes it: the two mirror-owned
fields always come from the existing record, every sticky field is gap-filled
from the existing record only when the incoming value is empty or unset, and
all remaining fields keep the incoming value. -/
def mergeOutboundSpec (incoming existing : OutboundShipment) : OutboundShipment :=
  { name := incoming.name
    contents := incoming.contents
    street_1 := incoming.street_1
    street_2 := incoming.street_2
    city := incoming.city
    state := incoming.state
    zipcode := incoming.zipcode
    country := incoming.country
    address_formatted := incoming.address_formatted
    latitude := incoming.latitude
    longitude := incoming.longitude
    email := incoming.email
    phone := incoming.phone
    status := gapFill incoming.status existing.status
    carrier := gapFill incoming.carrier existing.carrier
    tracking_number := gapFill incoming.tracking_number existing.tracking_number
    tracking_link := gapFill incoming.tracking_link existing.tracking_link
    oxide_tracking_link := incoming.oxide_tracking_link
    tracking_status := gapFill incoming.tracking_status existing.tracking_status
    label_link := gapFill incoming.label_link existing.label_link
    cost := gapFillCost incoming.cost existing.cost
    pickup_date := gapFillOpt incoming.pickup_date existing.pickup_date
    created_time := incoming.created_time
    shipped_time := gapFillOpt incoming.shipped_time existing.shipped_time
    delivered_time := gapFillOpt incoming.delivered_time existing.delivered_time
    eta := gapFillOpt incoming.eta existing.eta
    shippo_id := gapFill incoming.shippo_id existing.shippo_id
    messages := incoming.messages
    notes := gapFill incoming.notes existing.notes
    geocode_cache := existing.geocode_cache
    local_pickup := incoming.local_pickup
    link_to_package_pickup := existing.link_to_package_pickup
    airtable_record_id := incoming.airtable_record_id }

/-- Claim C1, counterexample: on the sticky carrier field with the existing
value populated, the merge keeps the incoming value, not the existing one, as
soon as the incoming value is also non-empty — refuting that the merged record
always equals the existing record on populated sticky fields. -/
theorem C1_counterexample :
    (({ blankOutbound with carrier := "USPS" } : OutboundShipment).carrier ≠ "")
      ∧ (OutboundShipment.update_airtable_record { blankOutbound with carrier := "UPS" }
          { blankOutbound with carrier := "USPS" }).carrier = "UPS"
      ∧ (OutboundShipment.update_airtable_record { blankOutbound with carrier := "UPS" }
          { blankOutbound with carrier := "USPS" }).carrier
          ≠ ({ blankOutbound with carrier := "USPS" } : OutboundShipment).carrier := by
  refine ⟨by decide, by decide, by decide⟩

/-- Claim C1, amended: the merge fills a sticky field from the existing record
exactly when the incoming value is empty (or unset); a populated incoming
value always wins.  Both update_airtable_record implementations coincide with
the field-by-field gap-fill policy (mirror-owned link and geocode fields taken
from the existing record unconditionally). -/
theorem C1_theorem :
    (∀ incoming existing : OutboundShipment,
      incoming.update_airtable_record existing = mergeOutboundSpec incoming existing)
      ∧ (∀ incoming existing : InboundShipment,
        incoming.update_airtable_record existing = mergeInboundSpec incoming existing) :=
  ⟨fun _ _ => rfl, fun _ _ => rfl⟩

/-- Claim C5: the field merge is idempotent — merging a candidate against an
already-merged record changes nothing, for both shipment directions. -/
theorem C5_theorem :
    (∀ x y : OutboundShipment,
      x.update_airtable_record (x.update_airtable_record y) = x.update_airtable_record y)
      ∧ (∀ x y : InboundShipment,
        x.update_airtable_record (x.update_airtable_record y) = x.update_airtable_record y) := by
  constructor
  · intro x y
    unfold OutboundShipment.update_airtable_record
    apply OutboundShipment.ext <;> dsimp only <;> first | rfl | (split_ifs <;> rfl)
  · intro x y
    unfold InboundShipment.update_airtable_record
    apply InboundShipment.ext <;> dsimp only <;> first | rfl | (split_ifs <;> rfl)

/-! ## Claim C2: monotonic shipped_time -/

/-- Once the shipped time is set, the tracking-history loop only ever moves it
to an earlier timestamp and never clears it. -/
theorem shippedFold_some_le (now : Int) : ∀ (hist : List TrackingEvent) (s : Int),
    ∃ s', shippedFold now (some s) hist = some s' ∧ s' ≤ s := by
  intro hist
  induction hist with
  | nil => intro s; exact ⟨s, rfl, le_refl s⟩
  | cons h rest ih =>
    intro s
    by_cases ht : h.status = "TRANSIT"
    · cases hd : h.status_date with
      | none =>
        obtain ⟨s', h1, h2⟩ := ih s
        exact ⟨s', by simp only [shippedFold, ht, hd, if_true, if_pos]; exact h1, h2⟩
      | some t =>
        by_cases hlt : t < s
        · obtain ⟨s', h1, h2⟩ := ih t
          refine ⟨s', ?_, le_trans h2 (le_of_lt hlt)⟩
          simp only [shippedFold, ht, hd, if_pos, hlt, if_true]
          exact h1
        · obtain ⟨s', h1, h2⟩ := ih s
          refine ⟨s', ?_, h2⟩
          simp only [shippedFold, ht, hd, if_pos, hlt, if_false]
          exact h1
    · obtain ⟨s', h1, h2⟩ := ih s
      exact ⟨s', by simp only [shippedFold, ht, if_false]; exact h1, h2⟩

/-- The label phase touches neither status nor shipped_time. -/
theorem pollLabelPhase_status (label : Label) (self : OutboundShipment) :
    (pollLabelPhase label self).status = self.status := rfl

/-- The label phase leaves the shipped time alone. -/
theorem pollLabelPhase_shipped_time (label : Label) (self : OutboundShipment) :
    (pollLabelPhase label self).shipped_time = self.shipped_time := rfl

/-- The messages default leaves every other field alone. -/
theorem pollMessagesPhase_status (ts : TrackingEvent) (s0 : OutboundShipment) :
    (pollMessagesPhase ts s0).status = s0.status := by
  unfold pollMessagesPhase; split_ifs <;> rfl

/-- The messages default leaves the shipped time alone. -/
theorem pollMessagesPhase_shipped_time (ts : TrackingEvent) (s0 : OutboundShipment) :
    (pollMessagesPhase ts s0).shipped_time = s0.shipped_time := by
  unfold pollMessagesPhase; split_ifs <;> rfl

/-- When the status is already Shipped the transit step cannot overwrite the
shipped time. -/
theorem pollTransitStep_shipped_time_of_shipped (ts : TrackingEvent) (s : OutboundShipment)
    (h : s.status = "Shipped") : (pollTransitStep ts s).1.shipped_time = s.shipped_time := by
  unfold pollTransitStep
  split_ifs <;> first | rfl | exact absurd h (by assumption)

/-- The terminal status mapping never touches the shipped time. -/
theorem pollTerminalStep_shipped_time (ts : TrackingEvent) (s : OutboundShipment) :
    (pollTerminalStep ts s).shipped_time = s.shipped_time := by
  unfold pollTerminalStep
  dsimp only
  split_ifs <;> rfl

/-- Once the stored status is Shipped, the status-reaction phase leaves the
shipped time alone (the overwriting transit branch is guarded away). -/
theorem pollStatusPhase_shipped_time_of_shipped (ts : TrackingEvent) (s0 : OutboundShipment)
    (h : s0.status = "Shipped") : (pollStatusPhase ts s0).1.shipped_time = s0.shipped_time := by
  show (pollTerminalStep ts (pollTransitStep ts (pollMessagesPhase ts s0)).1).shipped_time = _
  rw [pollTerminalStep_shipped_time,
    pollTransitStep_shipped_time_of_shipped _ _ (by rw [pollMessagesPhase_status]; exact h),
    pollMessagesPhase_shipped_time]

/-- Fixed concrete environment used by the C2 counterexample: the stored
record was already shipped and delivered (shipped time 10), and a late carrier
glitch reports TRANSIT again with status date 100 and an empty history. -/
def c2xSelf : OutboundShipment :=
  { blankOutbound with
    status := "Delivered", shippo_id := "sid", carrier := "USPS"
    shipped_time := some 10, latitude := 3, longitude := 4 }

/-- The external responses of the counterexample pass. -/
def c2xEnv : ExternalIn :=
  { geo_latitude := 3, geo_longitude := 4
    label := { tracking_number := "tn", tracking_url_provider := "tl", tracking_status := "ts"
               label_url := "lu", eta := none, object_id := "sid", status := "SUCCESS", messages := "" }
    webhook := { tracking_number := "tn"
                 tracking_status := some { status := "TRANSIT", status_date := some 100, status_details := "d" }
                 eta := none, tracking_history := [] }
    shipment_rates := []
    new_label := { tracking_number := "", tracking_url_provider := "", tracking_status := ""
                   label_url := "", eta := none, object_id := "", status := "SUCCESS", messages := "" } }

/-- Claim C2, counterexample: a poll that reports TRANSIT while the stored
status is not Shipped overwrites the already-set shipped_time (10) with the
report's status date (100), moving it later — refuting that a set shipped_time
only ever moves earlier or stays equal on every subsequent poll. -/
theorem C2_counterexample :
    c2xSelf.shipped_time = some 10
      ∧ (c2xSelf.create_or_get_shippo_shipment (fun _ => some 0) c2xEnv 1000).map
          (fun r => r.1.shipped_time) = some (some 100)
      ∧ (10 : Int) < 100 := by
  refine ⟨by decide, by decide, by decide⟩

/-- Claim C2, amended: the tracking-history fold alone never moves a set
shipped_time later and never clears it; an outbound poll preserves this
whenever the stored status is already Shipped (the state the transit
transition leaves behind); the inbound expand is unconditionally monotone; and
for a history of two TRANSIT entries with dates T1 then T2, T2 < T1 < now, the
final shipped_time is T2.  (When the stored status is not Shipped, a TRANSIT
report first overwrites shipped_time with its status date, which can move it
later — the counterexample.) -/
theorem C2_theorem :
    (∀ (now : Int) (hist : List TrackingEvent) (s : Int),
        ∃ s', shippedFold now (some s) hist = some s' ∧ s' ≤ s)
      ∧ (∀ (now : Int) (label : Label) (webhook : TrackingInfo) (self : OutboundShipment) (s : Int),
          self.status = "Shipped" → self.shipped_time = some s →
          ∃ s', (self.pollShippo now label webhook).1.shipped_time = some s' ∧ s' ≤ s)
      ∧ (∀ (now : Int) (ts : TrackingInfo) (self : InboundShipment) (s : Int),
          self.shipped_time = some s →
          ∃ s', (NewInboundShipment.expand now ts self).shipped_time = some s' ∧ s' ≤ s)
      ∧ (∀ (now t1 t2 : Int), t1 < now → t2 < t1 →
          shippedFold now none
            [{ status := "TRANSIT", status_date := some t1, status_details := "" },
             { status := "TRANSIT", status_date := some t2, status_details := "" }] = some t2) := by
  refine ⟨shippedFold_some_le, ?_, ?_, ?_⟩
  · intro now label webhook self s hst hsh
    unfold OutboundShipment.pollShippo
    dsimp only
    rw [pollStatusPhase_shipped_time_of_shipped _ _ (by rw [pollLabelPhase_status]; exact hst),
      pollLabelPhase_shipped_time, hsh]
    exact shippedFold_some_le now webhook.tracking_history s
  · intro now ts self s hsh
    unfold NewInboundShipment.expand InboundShipment.tracking_link_update
    dsimp only
    split_ifs <;> (dsimp only; rw [hsh]; exact shippedFold_some_le now ts.tracking_history s)
  · intro now t1 t2 h1 h2
    have h3 : t2 < t1 := h2
    simp only [shippedFold, if_pos, reduceIte, h1, if_true, h3]

/-- Concrete instantiation of the hypotheses of C2_theorem. -/
theorem C2_witness :
    (∃ s', shippedFold 5 (some 3) [] = some s' ∧ s' ≤ 3)
      ∧ (∃ s', (({ blankOutbound with status := "Shipped", shipped_time := some 7
            } : OutboundShipment).pollShippo 0 c2xEnv.label c2xEnv.webhook).1.shipped_time = some s'
            ∧ s' ≤ 7)
      ∧ (∃ s', (NewInboundShipment.expand 0 c2xEnv.webhook
            { blankInbound with shipped_time := some 7 }).shipped_time = some s' ∧ s' ≤ 7)
      ∧ shippedFold 100 none
          [{ status := "TRANSIT", status_date := some 50, status_details := "" },
           { status := "TRANSIT", status_date := some 20, status_details := "" }] = some 20 :=
  ⟨C2_theorem.1 5 [] 3,
    C2_theorem.2.1 0 c2xEnv.label c2xEnv.webhook _ 7 rfl rfl,
    C2_theorem.2.2.1 0 c2xEnv.webhook _ 7 rfl,
    C2_theorem.2.2.2 100 50 20 (by decide) (by decide)⟩

/-! ## Claim C3: the package-on-the-way notification -/

/-- On a transit report the transit step lands on Shipped and notifies exactly
when the status was not Shipped yet. -/
theorem pollTransitStep_transit (ts : TrackingEvent) (s : OutboundShipment)
    (h : ts.status = "TRANSIT" ∨ ts.status = "IN_TRANSIT") :
    (pollTransitStep ts s).1.status = "Shipped"
      ∧ ((pollTransitStep ts s).2 = true ↔ ¬ s.status = "Shipped") := by
  unfold pollTransitStep
  rw [if_pos h]
  split_ifs with h1
  · exact ⟨rfl, iff_of_true rfl h1⟩
  · exact ⟨rfl, iff_of_false (by decide) h1⟩

/-- Without a transit report the transit step is the identity and notifies
nobody. -/
theorem pollTransitStep_not_transit (ts : TrackingEvent) (s : OutboundShipment)
    (h : ¬ (ts.status = "TRANSIT" ∨ ts.status = "IN_TRANSIT")) :
    pollTransitStep ts s = (s, false) := by
  unfold pollTransitStep
  rw [if_neg h]

/-- A transit report matches no terminal status, so the terminal mapping does
nothing. -/
theorem pollTerminalStep_of_transit (ts : TrackingEvent) (s : OutboundShipment)
    (h : ts.status = "TRANSIT" ∨ ts.status = "IN_TRANSIT") :
    pollTerminalStep ts s = s := by
  unfold pollTerminalStep
  rcases h with h | h <;> rw [h] <;> rfl

/-- The terminal mapping leaves the status alone or moves it to one of the
three terminal names. -/
theorem pollTerminalStep_status_cases (ts : TrackingEvent) (s : OutboundShipment) :
    (pollTerminalStep ts s).status = s.status ∨ (pollTerminalStep ts s).status = "Delivered"
      ∨ (pollTerminalStep ts s).status = "Returned"
      ∨ (pollTerminalStep ts s).status = "Failure" := by
  unfold pollTerminalStep
  dsimp only
  split_ifs <;> simp

/-- On a transit report the status phase always lands on Shipped and sends the
recipient notification exactly when the stored status was not yet Shipped. -/
theorem pollStatusPhase_transit (ts : TrackingEvent) (s0 : OutboundShipment)
    (h : ts.status = "TRANSIT" ∨ ts.status = "IN_TRANSIT") :
    (pollStatusPhase ts s0).1.status = "Shipped"
      ∧ ((pollStatusPhase ts s0).2 = true ↔ ¬ s0.status = "Shipped") := by
  have ht := pollTransitStep_transit ts (pollMessagesPhase ts s0) h
  constructor
  · show (pollTerminalStep ts (pollTransitStep ts (pollMessagesPhase ts s0)).1).status = _
    rw [pollTerminalStep_of_transit ts _ h, ht.1]
  · show (pollTransitStep ts (pollMessagesPhase ts s0)).2 = true ↔ _
    rw [ht.2, pollMessagesPhase_status]

/-- Without a transit report the status phase never sends the notification and
never moves the status to Shipped. -/
theorem pollStatusPhase_not_transit (ts : TrackingEvent) (s0 : OutboundShipment)
    (h : ¬ (ts.status = "TRANSIT" ∨ ts.status = "IN_TRANSIT")) :
    (pollStatusPhase ts s0).2 = false
      ∧ ((pollStatusPhase ts s0).1.status = s0.status
          ∨ (pollStatusPhase ts s0).1.status = "Delivered"
          ∨ (pollStatusPhase ts s0).1.status = "Returned"
          ∨ (pollStatusPhase ts s0).1.status = "Failure") := by
  constructor
  · show (pollTransitStep ts (pollMessagesPhase ts s0)).2 = false
    rw [pollTransitStep_not_transit ts _ h]
  · show (pollTerminalStep ts (pollTransitStep ts (pollMessagesPhase ts s0)).1).status = s0.status
        ∨ (pollTerminalStep ts (pollTransitStep ts (pollMessagesPhase ts s0)).1).status = "Delivered"
        ∨ (pollTerminalStep ts (pollTransitStep ts (pollMessagesPhase ts s0)).1).status = "Returned"
        ∨ (pollTerminalStep ts (pollTransitStep ts (pollMessagesPhase ts s0)).1).status = "Failure"
    rw [pollTransitStep_not_transit ts _ h]
    rcases pollTerminalStep_status_cases ts (pollMessagesPhase ts s0) with h1 | h1 | h1 | h1
    · exact Or.inl (by rw [show ((pollMessagesPhase ts s0, false).1) = pollMessagesPhase ts s0 from rfl,
        h1, pollMessagesPhase_status])
    · exact Or.inr (Or.inl h1)
    · exact Or.inr (Or.inr (Or.inl h1))
    · exact Or.inr (Or.inr (Or.inr h1))

/-- One poll with a transit report: Shipped afterwards, notified exactly when
the stored status was not yet Shipped. -/
theorem pollShippo_transit (now : Int) (label : Label) (webhook : TrackingInfo)
    (self : OutboundShipment) (h : isTransit webhook) :
    (self.pollShippo now label webhook).1.status = "Shipped"
      ∧ ((self.pollShippo now label webhook).2 = true ↔ ¬ self.status = "Shipped") := by
  have base := pollStatusPhase_transit (webhook.tracking_status.getD blankEvent)
    (pollLabelPhase label self) h
  refine ⟨base.1, ?_⟩
  rw [show (self.pollShippo now label webhook).2
      = (pollStatusPhase (webhook.tracking_status.getD blankEvent) (pollLabelPhase label self)).2
    from rfl, base.2, pollLabelPhase_status]

/-- One poll without a transit report: no notification, and a record that was
not Shipped stays not Shipped. -/
theorem pollShippo_not_transit (now : Int) (label : Label) (webhook : TrackingInfo)
    (self : OutboundShipment) (h : ¬ isTransit webhook) :
    (self.pollShippo now label webhook).2 = false
      ∧ (¬ self.status = "Shipped" → ¬ (self.pollShippo now label webhook).1.status = "Shipped") := by
  have base := pollStatusPhase_not_transit (webhook.tracking_status.getD blankEvent)
    (pollLabelPhase label self) h
  refine ⟨base.1, fun hns => ?_⟩
  have hs : (self.pollShippo now label webhook).1.status
      = (pollStatusPhase (webhook.tracking_status.getD blankEvent) (pollLabelPhase label self)).1.status := rfl
  rw [hs]
  rcases base.2 with h1 | h1 | h1 | h1 <;> rw [h1]
  · rw [pollLabelPhase_status]; exact hns
  · decide
  · decide
  · decide

/-- A run of passes without transit reports sends nothing and cannot move the
status to Shipped. -/
theorem pollTrace_no_transit : ∀ (l : List PollIn) (self : OutboundShipment),
    (∀ p ∈ l, ¬ isTransit p.webhook) →
    (pollTrace self l).2 = 0
      ∧ (¬ self.status = "Shipped" → ¬ (pollTrace self l).1.status = "Shipped") := by
  intro l
  induction l with
  | nil => intro self _; exact ⟨rfl, fun h => h⟩
  | cons p rest ih =>
    intro self hl
    have hp := pollShippo_not_transit p.now p.label p.webhook self (hl p (by simp))
    have hrest := ih (self.pollShippo p.now p.label p.webhook).1
      (fun q hq => hl q (by simp [hq]))
    constructor
    · show (if (self.pollShippo p.now p.label p.webhook).2 then 1 else 0)
        + (pollTrace (self.pollShippo p.now p.label p.webhook).1 rest).2 = 0
      rw [hp.1, hrest.1]
      rfl
    · intro hns
      exact (hrest.2 (hp.2 hns))

/-- A run of passes with only transit reports, started at Shipped, sends
nothing and stays Shipped. -/
theorem pollTrace_all_transit_shipped : ∀ (l : List PollIn) (self : OutboundShipment),
    (∀ p ∈ l, isTransit p.webhook) → self.status = "Shipped" →
    (pollTrace self l).2 = 0 ∧ (pollTrace self l).1.status = "Shipped" := by
  intro l
  induction l with
  | nil => intro self _ hs; exact ⟨rfl, hs⟩
  | cons p rest ih =>
    intro self hl hs
    have hp := pollShippo_transit p.now p.label p.webhook self (hl p (by simp))
    have hsent : (self.pollShippo p.now p.label p.webhook).2 = false := by
      rcases hb : (self.pollShippo p.now p.label p.webhook).2 with _ | _
      · rfl
      · exact absurd hs (hp.2.mp hb)
    have hrest := ih (self.pollShippo p.now p.label p.webhook).1
      (fun q hq => hl q (by simp [hq])) hp.1
    constructor
    · show (if (self.pollShippo p.now p.label p.webhook).2 then 1 else 0)
        + (pollTrace (self.pollShippo p.now p.label p.webhook).1 rest).2 = 0
      rw [hsent, hrest.1]
      rfl
    · exact hrest.2

/-- Splitting a trace of passes splits the notification count. -/
theorem pollTrace_append : ∀ (a b : List PollIn) (self : OutboundShipment),
    (pollTrace self (a ++ b)).2
      = (pollTrace self a).2 + (pollTrace (pollTrace self a).1 b).2
      ∧ (pollTrace self (a ++ b)).1 = (pollTrace (pollTrace self a).1 b).1 := by
  intro a
  induction a with
  | nil => intro b self; exact ⟨(Nat.zero_add _).symm, rfl⟩
  | cons p rest ih =>
    intro b self
    obtain ⟨ihc, ihs⟩ := ih b (self.pollShippo p.now p.label p.webhook).1
    simp only [List.cons_append, pollTrace, List.append_eq]
    exact ⟨by rw [ihc, Nat.add_assoc], ihs⟩

/-- A fixed label response for the C3 scenario passes. -/
def c3Label : Label :=
  { tracking_number := "tn", tracking_url_provider := "", tracking_status := ""
    label_url := "", eta := none, object_id := "sid", status := "SUCCESS", messages := "" }

/-- A pass whose webhook reports TRANSIT. -/
def c3Transit : PollIn :=
  { now := 1000, label := c3Label
    webhook := { tracking_number := "tn"
                 tracking_status := some { status := "TRANSIT", status_date := some 5, status_details := "" }
                 eta := none, tracking_history := [] } }

/-- A pass whose webhook reports DELIVERED. -/
def c3Delivered : PollIn :=
  { now := 1000, label := c3Label
    webhook := { tracking_number := "tn"
                 tracking_status := some { status := "DELIVERED", status_date := some 9, status_details := "" }
                 eta := none, tracking_history := [] } }

/-- The stored record at the start of the C3 scenario. -/
def c3xStart : OutboundShipment :=
  { blankOutbound with status := "Label printed", shippo_id := "sid" }

/-- External inputs for the C3 witness (no label yet, no rate quotes). -/
def c3wEnv : ExternalIn :=
  { geo_latitude := 1, geo_longitude := 2, label := c3Label, webhook := c3Transit.webhook
    shipment_rates := [], new_label := c3Label }

/-- Claim C3, counterexample: over the passes TRANSIT, DELIVERED, TRANSIT the
recipient notification fires twice — after the record reaches Delivered, a
carrier report regressing to TRANSIT finds the stored status no longer equal
to Shipped and sends the package-on-the-way email again, refuting that the
notification can never fire on a later pass. -/
theorem C3_counterexample :
    (pollTrace c3xStart [c3Transit, c3Delivered, c3Transit]).2 = 2
      ∧ isTransit c3Transit.webhook ∧ ¬ isTransit c3Delivered.webhook := by
  refine ⟨by decide, by decide, by decide⟩

/-- The geocode refill leaves the local-pickup flag alone. -/
theorem geocodeStep_local_pickup (env : ExternalIn) (s : OutboundShipment) :
    (geocodeStep env s).local_pickup = s.local_pickup := by
  unfold geocodeStep; split_ifs <;> rfl

/-- The geocode refill leaves the shippo id alone. -/
theorem geocodeStep_shippo_id (env : ExternalIn) (s : OutboundShipment) :
    (geocodeStep env s).shippo_id = s.shippo_id := by
  unfold geocodeStep; split_ifs <;> rfl

/-- Formatting the address leaves the local-pickup flag alone. -/
theorem populate_local_pickup (s : OutboundShipment) :
    s.populate_formatted_address.local_pickup = s.local_pickup := by
  unfold OutboundShipment.populate_formatted_address
  rfl

/-- Formatting the address leaves the shippo id alone. -/
theorem populate_shippo_id (s : OutboundShipment) :
    s.populate_formatted_address.shippo_id = s.shippo_id := by
  unfold OutboundShipment.populate_formatted_address
  rfl

/-- The label-creation branch never sends the recipient notification (it only
sends the internal packing email). -/
theorem createLabelBranch_no_recipient (parseCost : String → Option Int) (env : ExternalIn)
    (s : OutboundShipment) (r : OutboundShipment × Bool)
    (h : createLabelBranch parseCost env s = some r) : r.2 = false := by
  unfold createLabelBranch at h
  by_cases hc : s.country ≠ "US"
  · rw [if_pos hc] at h
    rcases hq : customs_items_quantities s.contents with _ | qs <;> rw [hq] at h
    · exact Option.noConfusion h
    · dsimp only [Option.map, Option.bind] at h
      rcases hr : env.shipment_rates.find?
          (fun r => r.attributes.contains "BESTVALUE" || r.attributes.contains "CHEAPEST")
        with _ | rate <;> rw [hr] at h <;> dsimp only at h
      · injection h with h2; rw [← h2]
      · rcases hpc : parseCost rate.amount_local with _ | cost <;> rw [hpc] at h <;>
          dsimp only [Option.map] at h
        · exact Option.noConfusion h
        · injection h with h2; rw [← h2]
  · rw [if_neg hc] at h
    dsimp only [Option.bind] at h
    rcases hr : env.shipment_rates.find?
        (fun r => r.attributes.contains "BESTVALUE" || r.attributes.contains "CHEAPEST")
      with _ | rate <;> rw [hr] at h <;> dsimp only at h
    · injection h with h2; rw [← h2]
    · rcases hpc : parseCost rate.amount_local with _ | cost <;> rw [hpc] at h <;>
        dsimp only [Option.map] at h
      · exact Option.noConfusion h
      · injection h with h2; rw [← h2]

/-- Claim C3, amended: the notification fires on exactly the polling passes
where the carrier reports TRANSIT or IN_TRANSIT and the stored status is not
already Shipped.  Along any pass sequence in which the transit reports form
one contiguous block (no transit report recurs after a non-transit report has
followed one), it fires exactly once, on the transition into Shipped; and no
pass of the label-creation or local-pickup branches ever sends it.  A transit
report arriving after a terminal status re-fires it (the counterexample). -/
theorem C3_theorem :
    (∀ (parseCost : String → Option Int) (env : ExternalIn) (now : Int)
        (self : OutboundShipment) (r : OutboundShipment × Bool),
        self.shippo_id = "" ∨ self.local_pickup = true →
        self.create_or_get_shippo_shipment parseCost env now = some r → r.2 = false)
      ∧ (∀ (self : OutboundShipment) (pre : List PollIn) (q : PollIn) (bs post : List PollIn),
          ¬ self.status = "Shipped" →
          (∀ p ∈ pre, ¬ isTransit p.webhook) → isTransit q.webhook →
          (∀ p ∈ bs, isTransit p.webhook) → (∀ p ∈ post, ¬ isTransit p.webhook) →
          (pollTrace self (pre ++ q :: (bs ++ post))).2 = 1) := by
  constructor
  · intro parseCost env now self r hyp hres
    unfold OutboundShipment.create_or_get_shippo_shipment at hres
    dsimp only at hres
    by_cases hl : (geocodeStep env self.populate_formatted_address).local_pickup
    · rw [if_pos hl] at hres
      injection hres with h2
      subst h2
      rfl
    · rw [if_neg hl] at hres
      by_cases hsid : (geocodeStep env self.populate_formatted_address).shippo_id ≠ ""
      · exfalso
        rcases hyp with hyp | hyp
        · exact hsid (by rw [geocodeStep_shippo_id, populate_shippo_id]; exact hyp)
        · exact hl (by rw [geocodeStep_local_pickup, populate_local_pickup]; exact hyp)
      · rw [if_neg hsid] at hres
        exact createLabelBranch_no_recipient parseCost env _ r hres
  · intro self pre q bs post hst hpre hq hbs hpost
    obtain ⟨hcount, -⟩ := pollTrace_append pre (q :: (bs ++ post)) self
    rw [hcount, (pollTrace_no_transit pre self hpre).1, Nat.zero_add]
    have hs1 : ¬ (pollTrace self pre).1.status = "Shipped" :=
      (pollTrace_no_transit pre self hpre).2 hst
    have hqstep := pollShippo_transit q.now q.label q.webhook (pollTrace self pre).1 hq
    show (if ((pollTrace self pre).1.pollShippo q.now q.label q.webhook).2 then 1 else 0)
        + (pollTrace ((pollTrace self pre).1.pollShippo q.now q.label q.webhook).1 (bs ++ post)).2
        = 1
    rw [hqstep.2.mpr hs1, if_pos rfl]
    obtain ⟨hbcount, -⟩ := pollTrace_append bs post
      ((pollTrace self pre).1.pollShippo q.now q.label q.webhook).1
    rw [hbcount]
    have hbstep := pollTrace_all_transit_shipped bs
      ((pollTrace self pre).1.pollShippo q.now q.label q.webhook).1 hbs hqstep.1
    rw [hbstep.1, Nat.zero_add,
      (pollTrace_no_transit post (pollTrace
        ((pollTrace self pre).1.pollShippo q.now q.label q.webhook).1 bs).1 hpost).1]

/-- Concrete instantiation of the hypotheses of C3_theorem: a fresh queued
record going through the label-creation branch sends no recipient email, and
the trace transit-then-delivered notifies exactly once. -/
theorem C3_witness :
    ((OutboundShipment.create_or_get_shippo_shipment (fun _ => some 0) c3wEnv 0 blankOutbound).getD
        (blankOutbound, true)).2 = false
      ∧ (pollTrace c3xStart [c3Transit, c3Delivered]).2 = 1 :=
  ⟨C3_theorem.1 (fun _ => some 0) c3wEnv 0 blankOutbound _ (Or.inl rfl) (by decide),
    C3_theorem.2 c3xStart [] c3Transit [] [c3Delivered] (by decide) (by simp) (by decide)
      (by simp) (by intro p hp; simp at hp; subst hp; decide)⟩

/-! ## Claims C8 and C9: pickup scheduling -/

/-- Reading Friday off the weekday name pins the day number modulo seven. -/
theorem weekdayName_friday (d : Int) (h : weekdayName d = "Friday") : d % 7 = 1 := by
  unfold weekdayName at h
  dsimp only at h
  split_ifs at h with h1 h2 h3 h4 h5 h6 <;> first | assumption | (exact absurd h (by decide))

/-- The local day of the window start: tomorrow, pushed to Monday across a
weekend. -/
theorem gnbd_day_push (off now : Int) :
    localDay off (get_next_business_day off now).1
      = (if weekdayName (localDay off now + 1) = "Saturday" then localDay off now + 3
         else if weekdayName (localDay off now + 1) = "Sunday" then localDay off now + 2
         else localDay off now + 1) := by
  unfold get_next_business_day
  dsimp only
  rw [show localDay off (now + 86400) = localDay off now + 1 from by unfold localDay; omega]
  split_ifs <;> (unfold localDay localInstant; omega)

/-- Claim C9: the pickup window is the next business day, 08:59:59 to 16:59:59
local: both window ends lie on the same local day with those local seconds;
that day is tomorrow, pushed to Monday when tomorrow is a Saturday or Sunday;
and running on a Friday yields the following Monday, three days out. -/
theorem C9_theorem :
    (∀ off now : Int,
        localSecOfDay off (get_next_business_day off now).1 = 8 * 3600 + 59 * 60 + 59
          ∧ localSecOfDay off (get_next_business_day off now).2 = 16 * 3600 + 59 * 60 + 59
          ∧ localDay off (get_next_business_day off now).1
              = localDay off (get_next_business_day off now).2)
      ∧ (∀ off now : Int,
          localDay off (get_next_business_day off now).1
            = (if weekdayName (localDay off now + 1) = "Saturday" then localDay off now + 3
               else if weekdayName (localDay off now + 1) = "Sunday" then localDay off now + 2
               else localDay off now + 1))
      ∧ (∀ off now : Int, weekdayName (localDay off now) = "Friday" →
          localDay off (get_next_business_day off now).1 = localDay off now + 3
            ∧ weekdayName (localDay off (get_next_business_day off now).1) = "Monday") := by
  refine ⟨?_, gnbd_day_push, ?_⟩
  · intro off now
    unfold get_next_business_day localInstant localDay localSecOfDay
    dsimp only
    split_ifs <;> refine ⟨by omega, by omega, by omega⟩
  · intro off now h
    have hd7 : localDay off now % 7 = 1 := weekdayName_friday _ h
    have hsat : weekdayName (localDay off now + 1) = "Saturday" := by
      unfold weekdayName
      rw [show (localDay off now + 1) % 7 = 2 from by omega]
      decide
    constructor
    · rw [gnbd_day_push off now, hsat, if_pos rfl]
    · rw [gnbd_day_push off now, hsat, if_pos rfl]
      unfold weekdayName
      rw [show (localDay off now + 3) % 7 = 4 from by omega]
      decide

/-- Concrete instantiation of the Friday hypothesis of C9_theorem: Pacific
standard offset, Friday 1970-01-02 in local time. -/
theorem C9_witness :
    localDay (-28800) (get_next_business_day (-28800) 118800).1 = localDay (-28800) 118800 + 3
      ∧ weekdayName (localDay (-28800) (get_next_business_day (-28800) 118800).1) = "Monday" :=
  C9_theorem.2.2 (-28800) 118800 (by decide)

/-- Claim C8: create_pickup selects exactly the records with status Label
printed, carrier USPS and no pickup date; when no record of the repository
satisfies that, it makes no carrier API call, creates no PackagePickup row,
and leaves the repository untouched. -/
theorem C8_theorem :
    (∀ s : OutboundShipment, pickupEligible s = true
        ↔ (s.status = "Label printed" ∧ s.carrier = "USPS" ∧ s.pickup_date = none))
      ∧ (∀ (db : List OutboundShipment) (accounts : List CarrierAccount) (resp : PickupResponse)
          (off now : Int),
          (∀ s ∈ db, ¬ (s.status = "Label printed" ∧ s.carrier = "USPS" ∧ s.pickup_date = none)) →
          OutboundShipments.create_pickup db accounts resp off now = (db, none, false)) := by
  have hchar : ∀ s : OutboundShipment, pickupEligible s = true
      ↔ (s.status = "Label printed" ∧ s.carrier = "USPS" ∧ s.pickup_date = none) := by
    intro s
    unfold pickupEligible
    simp [Bool.and_eq_true, beq_iff_eq, and_assoc]
  refine ⟨hchar, ?_⟩
  intro db accounts resp off now h
  unfold OutboundShipments.create_pickup
  have hf : db.filter pickupEligible = [] := by
    rw [List.filter_eq_nil_iff]
    intro a ha
    intro hcontra
    exact h a ha ((hchar a).mp hcontra)
  rw [hf]
  dsimp only
  rw [if_pos rfl]

/-- Concrete instantiation of the hypotheses of C8_theorem: an eligible record
and an ineligible one, and an empty-selection run. -/
theorem C8_witness :
    (pickupEligible { blankOutbound with status := "Label printed", carrier := "USPS" } = true
        ↔ (("Label printed" : String) = "Label printed" ∧ ("USPS" : String) = "USPS"
            ∧ (none : Option Int) = none))
      ∧ OutboundShipments.create_pickup [{ blankOutbound with status := "Queued" }] []
          { object_id := "", confirmation_code := "", status := "", confirmed_start_time := none
            confirmed_end_time := none, cancel_by_time := none, messages := "" } 0 0
        = ([{ blankOutbound with status := "Queued" }], none, false) :=
  ⟨C8_theorem.1 { blankOutbound with status := "Label printed", carrier := "USPS" },
    C8_theorem.2 [{ blankOutbound with status := "Queued" }] []
      { object_id := "", confirmation_code := "", status := "", confirmed_start_time := none
        confirmed_end_time := none, cancel_by_time := none, messages := "" } 0 0 (by decide)⟩

/-! ## Claim C6: header-column discovery -/

/-- The index of the last header cell at or after a given index whose
lowercased text contains the keyword — the rule the amended claim states. -/
def lastMatchFrom (pat : String) (index : Nat) : List String → Option Nat
  | [] => none
  | col :: rest =>
    match lastMatchFrom pat (index + 1) rest with
    | some j => some j
    | none => if hasSubS (toLowerS col) pat then some index else none

/-- The header scan computes, for any single target field, the last matching
cell index, falling back to the inherited value. -/
theorem scanFrom_proj (pat : String) (proj : SwagSheetColumns → Nat)
    (hcell : ∀ (i : Nat) (c : String) (cols : SwagSheetColumns),
      proj (applyCell i c cols) = if hasSubS (toLowerS c) pat then i else proj cols) :
    ∀ (row : List String) (i : Nat) (cols : SwagSheetColumns),
      proj (scanFrom cols i row) = (lastMatchFrom pat i row).getD (proj cols) := by
  intro row
  induction row with
  | nil => intro i cols; rfl
  | cons c rest ih =>
    intro i cols
    show proj (scanFrom (applyCell i c cols) (i + 1) rest) = _
    rw [ih (i + 1) (applyCell i c cols), hcell]
    show _ = (match lastMatchFrom pat (i + 1) rest with
      | some j => some j
      | none => if hasSubS (toLowerS c) pat then some i else none).getD (proj cols)
    cases hlm : lastMatchFrom pat (i + 1) rest
    · dsimp only
      split_ifs <;> rfl
    · rfl

/-- Claim C6, counterexample: with two header cells both containing the
timestamp keyword, parse assigns index 1 — the last matching cell, not the
first (cell 0 also matches), refuting first-match-wins. -/
theorem C6_counterexample :
    (SwagSheetColumns.parse [["Timestamp a", "Timestamp b"]]).map (fun c => c.timestamp) = some 1
      ∧ hasSubS (toLowerS "Timestamp a") "timestamp" = true := by
  refine ⟨by decide, by decide⟩

/-- Claim C6, amended: the scan is case-insensitive substring matching over
the header row, but for every target field the LAST header cell containing the
field's keyword wins (each matching cell overwrites the index); a field whose
keyword appears nowhere keeps the default index 0.  Parse panics (none) on an
empty sheet. -/
theorem C6_theorem :
    ∀ (row : List String) (rest : List (List String)),
      SwagSheetColumns.parse (row :: rest)
        = some
          { timestamp := (lastMatchFrom "timestamp" 0 row).getD 0
            name := (lastMatchFrom "name" 0 row).getD 0
            email := (lastMatchFrom "email address" 0 row).getD 0
            street_1 := (lastMatchFrom "street address line 1" 0 row).getD 0
            street_2 := (lastMatchFrom "street address line 2" 0 row).getD 0
            city := (lastMatchFrom "city" 0 row).getD 0
            state := (lastMatchFrom "state" 0 row).getD 0
            zipcode := (lastMatchFrom "zipcode" 0 row).getD 0
            country := (lastMatchFrom "country" 0 row).getD 0
            phone := (lastMatchFrom "phone" 0 row).getD 0
            sent := (lastMatchFrom "sent" 0 row).getD 0
            fleece_size := (lastMatchFrom "fleece" 0 row).getD 0
            hoodie_size := (lastMatchFrom "hoodie" 0 row).getD 0
            womens_shirt_size := (lastMatchFrom "women's tee" 0 row).getD 0
            unisex_shirt_size := (lastMatchFrom "unisex tee" 0 row).getD 0
            kids_shirt_size := (lastMatchFrom "onesie" 0 row).getD 0 } := by
  intro row rest
  show some (scanFrom swagDefault 0 row) = _
  congr 1
  ext
  case timestamp => exact scanFrom_proj "timestamp" (fun c => c.timestamp) (fun i c cols => rfl) row 0 swagDefault
  case name => exact scanFrom_proj "name" (fun c => c.name) (fun i c cols => rfl) row 0 swagDefault
  case email => exact scanFrom_proj "email address" (fun c => c.email) (fun i c cols => rfl) row 0 swagDefault
  case street_1 => exact scanFrom_proj "street address line 1" (fun c => c.street_1) (fun i c cols => rfl) row 0 swagDefault
  case street_2 => exact scanFrom_proj "street address line 2" (fun c => c.street_2) (fun i c cols => rfl) row 0 swagDefault
  case city => exact scanFrom_proj "city" (fun c => c.city) (fun i c cols => rfl) row 0 swagDefault
  case state => exact scanFrom_proj "state" (fun c => c.state) (fun i c cols => rfl) row 0 swagDefault
  case zipcode => exact scanFrom_proj "zipcode" (fun c => c.zipcode) (fun i c cols => rfl) row 0 swagDefault
  case country => exact scanFrom_proj "country" (fun c => c.country) (fun i c cols => rfl) row 0 swagDefault
  case phone => exact scanFrom_proj "phone" (fun c => c.phone) (fun i c cols => rfl) row 0 swagDefault
  case sent => exact scanFrom_proj "sent" (fun c => c.sent) (fun i c cols => rfl) row 0 swagDefault
  case fleece_size => exact scanFrom_proj "fleece" (fun c => c.fleece_size) (fun i c cols => rfl) row 0 swagDefault
  case hoodie_size => exact scanFrom_proj "hoodie" (fun c => c.hoodie_size) (fun i c cols => rfl) row 0 swagDefault
  case womens_shirt_size => exact scanFrom_proj "women's tee" (fun c => c.womens_shirt_size) (fun i c cols => rfl) row 0 swagDefault
  case unisex_shirt_size => exact scanFrom_proj "unisex tee" (fun c => c.unisex_shirt_size) (fun i c cols => rfl) row 0 swagDefault
  case kids_shirt_size => exact scanFrom_proj "onesie" (fun c => c.kids_shirt_size) (fun i c cols => rfl) row 0 swagDefault

/-! ## Claim C7: malformed customs contents line -/

/-- A contents line is malformed when it carries the quantity separator but
its quantity text does not parse as a number. -/
def malformedLine (line : String) : Bool :=
  match splitOnceS line " x " with
  | some p => (parseNatS p.1).isNone
  | none => false

/-- A malformed line makes its own quantity parse fail. -/
theorem parseQuantity_of_malformed (line : String) (h : malformedLine line = true) :
    parseQuantity line = none := by
  unfold malformedLine at h
  unfold parseQuantity
  cases hsp : splitOnceS line " x " with
  | none => rw [hsp] at h; exact absurd h (by decide)
  | some p =>
    rw [hsp] at h
    dsimp only
    exact Option.isNone_iff_eq_none.mp h

/-- One malformed line anywhere fails the whole quantity loop. -/
theorem customsQuantities_none : ∀ (ls : List String),
    (∃ line ∈ ls, malformedLine line = true) → customsQuantities ls = none := by
  intro ls
  induction ls with
  | nil => intro h; obtain ⟨line, hm, -⟩ := h; exact absurd hm (by simp)
  | cons a rest ih =>
    intro h
    obtain ⟨line, hm, hbad⟩ := h
    unfold customsQuantities
    rcases List.mem_cons.mp hm with hm | hm
    · subst hm
      rw [parseQuantity_of_malformed line hbad]
    · cases hpa : parseQuantity a
      · rfl
      · rw [ih ⟨line, hm, hbad⟩]

/-- The geocode refill leaves the country alone. -/
theorem geocodeStep_country (env : ExternalIn) (s : OutboundShipment) :
    (geocodeStep env s).country = s.country := by
  unfold geocodeStep; split_ifs <;> rfl

/-- The geocode refill leaves the contents alone. -/
theorem geocodeStep_contents (env : ExternalIn) (s : OutboundShipment) :
    (geocodeStep env s).contents = s.contents := by
  unfold geocodeStep; split_ifs <;> rfl

/-- Formatting the address leaves the country alone. -/
theorem populate_country (s : OutboundShipment) :
    s.populate_formatted_address.country = s.country := by
  unfold OutboundShipment.populate_formatted_address; rfl

/-- Formatting the address leaves the contents alone. -/
theorem populate_contents (s : OutboundShipment) :
    s.populate_formatted_address.contents = s.contents := by
  unfold OutboundShipment.populate_formatted_address; rfl

/-- Concrete record for the C7 counterexample: an international destination
whose contents line spells the quantity in words. -/
def c7xSelf : OutboundShipment :=
  { blankOutbound with
    country := "DE", contents := "two x Oxide Hoodie"
    latitude := 1, longitude := 1 }

/-- External inputs for the C7 counterexample. -/
def c7xEnv : ExternalIn :=
  { geo_latitude := 1, geo_longitude := 2
    label := { tracking_number := "", tracking_url_provider := "", tracking_status := ""
               label_url := "", eta := none, object_id := "", status := "SUCCESS", messages := "" }
    webhook := { tracking_number := "", tracking_status := none, eta := none, tracking_history := [] }
    shipment_rates := []
    new_label := { tracking_number := "", tracking_url_provider := "", tracking_status := ""
                   label_url := "", eta := none, object_id := "", status := "SUCCESS", messages := "" } }

/-- Claim C7, counterexample: on the malformed line the quantity unwrap panics
and the whole reconciliation pass for the record aborts (none) — it is not
handled as a logged data fault that leaves the pass running. -/
theorem C7_counterexample :
    customs_items_quantities "two x Oxide Hoodie" = none
      ∧ c7xSelf.create_or_get_shippo_shipment (fun _ => some 0) c7xEnv 0 = none := by
  refine ⟨by decide, by decide⟩

/-- Claim C7, amended: a malformed contents line for a non-US destination (a
line containing the quantity separator whose quantity text is not a number)
panics the pass via unwrap: create_or_get_shippo_shipment aborts as a
process-level failure rather than logging and leaving the record in its
current status.  A line without the separator is not a fault: its quantity
defaults to 1. -/
theorem C7_theorem :
    (∀ (parseCost : String → Option Int) (env : ExternalIn) (now : Int) (self : OutboundShipment),
        self.local_pickup = false → self.shippo_id = "" → self.country ≠ "US" →
        (∃ line ∈ rustLines self.contents, malformedLine line = true) →
        self.create_or_get_shippo_shipment parseCost env now = none)
      ∧ (∀ line : String, splitOnceS line " x " = none → parseQuantity line = some 1) := by
  constructor
  · intro parseCost env now self hlp hsid hc hbad
    unfold OutboundShipment.create_or_get_shippo_shipment
    dsimp only
    have h1 : (geocodeStep env self.populate_formatted_address).local_pickup = false := by
      rw [geocodeStep_local_pickup, populate_local_pickup]; exact hlp
    have h2 : (geocodeStep env self.populate_formatted_address).shippo_id = "" := by
      rw [geocodeStep_shippo_id, populate_shippo_id]; exact hsid
    rw [if_neg (by simp [h1]), if_neg (by simp [h2])]
    unfold createLabelBranch
    rw [if_pos (by rw [geocodeStep_country, populate_country]; exact hc)]
    unfold customs_items_quantities
    rw [geocodeStep_contents, populate_contents,
      customsQuantities_none (rustLines self.contents) hbad]
    rfl
  · intro line h
    unfold parseQuantity
    rw [h]
    rfl

/-- Concrete instantiation of the hypotheses of C7_theorem. -/
theorem C7_witness :
    c7xSelf.create_or_get_shippo_shipment (fun _ => some 1) c7xEnv 5 = none
      ∧ parseQuantity "no separator here" = some 1 :=
  ⟨C7_theorem.1 (fun _ => some 1) c7xEnv 5 c7xSelf rfl rfl (by decide)
      ⟨"two x Oxide Hoodie", by decide, by decide⟩,
    C7_theorem.2 "no separator here" (by decide)⟩

/-! ## Claim C10: unchecked indexing of the email and timestamp cells -/

/-- Every guarded cell yields its empty default on a short row. -/
theorem guardedCell_short (row : List String) (i : Nat) (f : String → String)
    (h : row.length ≤ i) : guardedCell row i f = "" := by
  unfold guardedCell
  rw [if_neg]
  intro hcon
  exact absurd hcon.1 (by omega)

/-- The country cell yields its US default on a short row. -/
theorem rowCountry_short (columns : SwagSheetColumns) (row : List String)
    (h : row.length ≤ columns.country) : rowCountry columns row = "US" := by
  unfold rowCountry
  dsimp only
  rw [if_neg (show ¬ (row.length > columns.country ∧ columns.country ≠ 0) from
    fun hcon => absurd hcon.1 (by omega))]
  rfl

/-- The sent flag yields false on a short row. -/
theorem rowSent_short (columns : SwagSheetColumns) (row : List String)
    (h : row.length ≤ columns.sent) : rowSent columns row = false := by
  unfold rowSent
  rw [if_neg (by omega)]

/-- The email cell panics on a short row. -/
theorem rowEmail_short (columns : SwagSheetColumns) (row : List String)
    (h : row.length ≤ columns.email) : rowEmail columns row = none := by
  unfold rowEmail
  rw [List.get?_eq_none.mpr h]
  rfl

/-- The timestamp cell panics on a short row. -/
theorem rowCreated_short (parseTs : String → Option Int) (columns : SwagSheetColumns)
    (row : List String) (h : row.length ≤ columns.timestamp) :
    rowCreated parseTs columns row = none := by
  unfold rowCreated
  rw [List.get?_eq_none.mpr h]
  rfl

/-- All five size cells short makes the assembled contents text empty. -/
theorem contents_short (columns : SwagSheetColumns) (row : List String)
    (h1 : row.length ≤ columns.hoodie_size) (h2 : row.length ≤ columns.fleece_size)
    (h3 : row.length ≤ columns.womens_shirt_size) (h4 : row.length ≤ columns.unisex_shirt_size)
    (h5 : row.length ≤ columns.kids_shirt_size) :
    trimS (contentsFromSizes (guardedCell row columns.hoodie_size (fun c => toUpperS (trimS c)))
      (guardedCell row columns.fleece_size (fun c => toUpperS (trimS c)))
      (guardedCell row columns.womens_shirt_size (fun c => toUpperS (trimS c)))
      (guardedCell row columns.unisex_shirt_size (fun c => toUpperS (trimS c)))
      (guardedCell row columns.kids_shirt_size (fun c => toUpperS (trimS c)))) = "" := by
  rw [guardedCell_short row _ _ h1, guardedCell_short row _ _ h2, guardedCell_short row _ _ h3,
    guardedCell_short row _ _ h4, guardedCell_short row _ _ h5]
  decide

/-- Claim C10: parse_from_row_with_columns indexes the email and timestamp
cells without a bounds check, so a row too short for either column panics
(none) instead of defaulting, while every other parsed field (name, phone,
address parts, sizes, sent, country) falls back to its empty default on a
short row. -/
theorem C10_theorem :
    (∀ (parseTs : String → Option Int) (airtable : OutboundShipment → Option AirtableFields)
        (db : List OutboundShipment) (columns : SwagSheetColumns) (row : List String),
        row.length ≤ columns.email →
        NewOutboundShipment.parse_from_row_with_columns parseTs airtable db columns row = none)
      ∧ (∀ (parseTs : String → Option Int) (airtable : OutboundShipment → Option AirtableFields)
          (db : List OutboundShipment) (columns : SwagSheetColumns) (row : List String),
          row.length ≤ columns.timestamp →
          NewOutboundShipment.parse_from_row_with_columns parseTs airtable db columns row = none)
      ∧ (∀ (parseTs : String → Option Int) (airtable : OutboundShipment → Option AirtableFields)
          (db : List OutboundShipment) (columns : SwagSheetColumns) (row : List String)
          (r : OutboundShipment) (sent : Bool),
          NewOutboundShipment.parse_from_row_with_columns parseTs airtable db columns row
            = some (r, sent) →
          (row.length ≤ columns.name → r.name = "")
            ∧ (row.length ≤ columns.phone → r.phone = "")
            ∧ (row.length ≤ columns.street_1 → r.street_1 = "")
            ∧ (row.length ≤ columns.street_2 → r.street_2 = "")
            ∧ (row.length ≤ columns.city → r.city = "")
            ∧ (row.length ≤ columns.state → r.state = "")
            ∧ (row.length ≤ columns.zipcode → r.zipcode = "")
            ∧ (row.length ≤ columns.country → r.country = "US")
            ∧ (row.length ≤ columns.sent → sent = false)
            ∧ (row.length ≤ columns.hoodie_size → row.length ≤ columns.fleece_size →
                row.length ≤ columns.womens_shirt_size → row.length ≤ columns.unisex_shirt_size →
                row.length ≤ columns.kids_shirt_size → r.contents = "")) := by
  refine ⟨?_, ?_, ?_⟩
  · intro parseTs airtable db columns row h
    unfold NewOutboundShipment.parse_from_row_with_columns
    dsimp only
    rw [rowEmail_short columns row h]
  · intro parseTs airtable db columns row h
    unfold NewOutboundShipment.parse_from_row_with_columns
    dsimp only
    rcases hre : rowEmail columns row with _ | em
    · rfl
    · dsimp only
      rw [rowCreated_short parseTs columns row h]
  · intro parseTs airtable db columns row r sent hres
    unfold NewOutboundShipment.parse_from_row_with_columns at hres
    dsimp only at hres
    rcases hre : rowEmail columns row with _ | em
    · rw [hre] at hres; exact Option.noConfusion hres
    rw [hre] at hres
    dsimp only at hres
    rcases hct : rowCreated parseTs columns row with _ | ct
    · rw [hct] at hres; exact Option.noConfusion hres
    rw [hct] at hres
    dsimp only at hres
    rcases hf : db.find? (fun s => s.email == em && s.created_time == ct) with _ | shp <;>
        rw [hf] at hres <;> dsimp only at hres <;>
        injection hres with h1 <;> injection h1 with ha hb <;> subst ha <;> subst hb <;>
        exact ⟨fun h => guardedCell_short row columns.name trimS h,
          fun h => guardedCell_short row columns.phone (fun c => toLowerS (trimS c)) h,
          fun h => guardedCell_short row columns.street_1 (fun c => toUpperS (trimS c)) h,
          fun h => guardedCell_short row columns.street_2 (fun c => toUpperS (trimS c)) h,
          fun h => guardedCell_short row columns.city (fun c => toUpperS (trimS c)) h,
          fun h => guardedCell_short row columns.state (fun c => toUpperS (trimS c)) h,
          fun h => guardedCell_short row columns.zipcode (fun c => toUpperS (trimS c)) h,
          fun h => rowCountry_short columns row h,
          fun h => rowSent_short columns row h,
          fun h1 h2 h3 h4 h5 => contents_short columns row h1 h2 h3 h4 h5⟩

/-- Columns for the C10 witness: email and timestamp discovered at cell 0,
name pointing past the end of the row. -/
def c10Cols : SwagSheetColumns := { swagDefault with name := 5 }

/-- Concrete instantiation of the hypotheses of C10_theorem: short rows panic
for the email and timestamp columns, and a one-cell row parses with the
guarded name falling back to empty. -/
theorem C10_witness :
    NewOutboundShipment.parse_from_row_with_columns (fun _ => some 0) (fun _ => none) []
        { swagDefault with email := 3 } ["a"] = none
      ∧ NewOutboundShipment.parse_from_row_with_columns (fun _ => some 0) (fun _ => none) []
          { swagDefault with timestamp := 3 } ["a"] = none
      ∧ ((NewOutboundShipment.parse_from_row_with_columns (fun _ => some 7) (fun _ => none) []
            c10Cols ["a@x.com"]).getD (blankOutbound, true)).1.name = "" :=
  ⟨C10_theorem.1 (fun _ => some 0) (fun _ => none) [] { swagDefault with email := 3 } ["a"]
      (by decide),
    C10_theorem.2.1 (fun _ => some 0) (fun _ => none) [] { swagDefault with timestamp := 3 } ["a"]
      (by decide),
    (C10_theorem.2.2 (fun _ => some 7) (fun _ => none) [] c10Cols ["a@x.com"]
        ((NewOutboundShipment.parse_from_row_with_columns (fun _ => some 7) (fun _ => none) []
          c10Cols ["a@x.com"]).getD (blankOutbound, true)).1
        ((NewOutboundShipment.parse_from_row_with_columns (fun _ => some 7) (fun _ => none) []
          c10Cols ["a@x.com"]).getD (blankOutbound, true)).2
        (by decide)).1 (by decide)⟩

/-! ## Claim C4: natural-key uniqueness across intake -/

/-- A queued repository row for alice, the natural key the second candidate
repeats. -/
def c4RowA : OutboundShipment :=
  { blankOutbound with email := "alice@x.com", created_time := 5, status := "Queued" }

/-- An unrelated queued row for bob sharing the empty (tracking_number,
carrier) pair the upsert matches on. -/
def c4RowB : OutboundShipment :=
  { blankOutbound with email := "bob@x.com", created_time := 6, status := "Queued" }

/-- Columns of the C4 scenario: email in cell 0, timestamp in cell 1. -/
def c4Cols : SwagSheetColumns := { swagDefault with timestamp := 1 }

/-- Claim C4, counterexample: re-processing alice's intake row against the
repository [bob, alice] updates BOB's row (the first row matching the upsert's
(tracking_number, carrier) key, both empty on queued rows) instead of the row
created by the first candidate, leaving two distinct rows with the natural key
(alice@x.com, 5) — the natural key is not kept unique. -/
theorem C4_counterexample :
    (([c4RowB, c4RowA].map (fun s => (s.email, s.created_time)))
        = [("bob@x.com", 6), ("alice@x.com", 5)])
      ∧ ((processRow (fun _ => some 5) (fun _ => none) c4Cols ["alice@x.com", "t"] "note"
            [c4RowB, c4RowA]).map (fun db => db.map (fun s => (s.email, s.created_time))))
          = some [("alice@x.com", 5), ("alice@x.com", 5)] := by
  refine ⟨by decide, by decide⟩

/-- Claim C4, amended: processing a second candidate whose (email,
created_time) natural key already exists never inserts a new repository row —
the candidate inherits the key row's tracking_number and carrier, so the
upsert (which matches on (tracking_number, carrier), the declared match_on
fields, not on the natural key) always finds a row to update.  When the key
row is the first row carrying its own (tracking_number, carrier) pair — in
particular when that pair is unique — the update lands exactly on the row
created by the first candidate and the natural key stays unique; otherwise an
unrelated row sharing the pair (e.g. another queued row with both fields still
empty) is overwritten and the natural key is duplicated (the counterexample).
-/
theorem C4_theorem :
    ∀ (parseTs : String → Option Int) (airtable : OutboundShipment → Option AirtableFields)
      (columns : SwagSheetColumns) (row : List String) (sheetNote : String)
      (db : List OutboundShipment) (i : Nat) (r : OutboundShipment) (em : String) (ct : Int),
      rowEmail columns row = some em →
      rowCreated parseTs columns row = some ct →
      rowSent columns row = false →
      db.find? (fun s => s.email == em && s.created_time == ct) = some r →
      db.findIdx? (fun s => s.tracking_number == r.tracking_number && s.carrier == r.carrier)
        = some i →
      ∃ c, processRow parseTs airtable columns row sheetNote db = some (db.set i c)
        ∧ c.email = em ∧ c.created_time = ct ∧ c.tracking_number = r.tracking_number
        ∧ c.carrier = r.carrier ∧ (db.set i c).length = db.length := by
  intro parseTs airtable columns row sheetNote db i r em ct he hc hs hf hidx
  unfold processRow NewOutboundShipment.parse_from_row_with_columns
  dsimp only
  rw [he]
  dsimp only
  rw [hc]
  dsimp only
  rw [hf]
  dsimp only [Option.map]
  rw [hs]
  rw [if_neg (by decide)]
  unfold upsert_outbound
  dsimp only
  rw [hidx]
  exact ⟨_, rfl, rfl, rfl, rfl, rfl, by simp⟩

/-- Concrete instantiation of the hypotheses of C4_theorem: alice's second
intake against the one-row repository holding her first row merges into that
row. -/
theorem C4_witness :
    ∃ c, processRow (fun _ => some 5) (fun _ => none) c4Cols ["alice@x.com", "t"] "note" [c4RowA]
        = some ([c4RowA].set 0 c)
      ∧ c.email = "alice@x.com" ∧ c.created_time = 5 ∧ c.tracking_number = c4RowA.tracking_number
      ∧ c.carrier = c4RowA.carrier ∧ ([c4RowA].set 0 c).length = [c4RowA].length :=
  C4_theorem (fun _ => some 5) (fun _ => none) c4Cols ["alice@x.com", "t"] "note" [c4RowA] 0
    c4RowA "alice@x.com" 5 (by decide) (by decide) (by decide) (by decide) (by decide)

end Cio
